import Mathlib

/-!
# Verification of the turf-finder aggregation pipeline

Shallow embedding of the core of the `turf-finder` repository (TypeScript):
the TTL-cache key generation (`cache.ts`), the Google Places client
(`google.ts`: request construction, `filterTurfResults`, `searchTurfs`,
`getPlaceDetails`, `getPlaceDetailsBatch`), the distance utility
(`distance.ts`: `haversineDistance`, `roundDistance`) and the result
builder (`index.ts`: `buildTurfResult`, `truncateText`, and the
distance/filter/sort step of `main`).

JavaScript numbers are modelled as `ℚ` where the code only compares and
selects them, and as `ℝ` where the code does transcendental arithmetic
(the haversine formula).  JavaScript strings are modelled as `String`;
`undefined`/absent fields are modelled as `Option`.  The JS truthiness
used by `||`-defaulting (empty string and `0` are falsy) is modelled
explicitly by the `jsOr*` helpers below.
-/

namespace TurfFinder

/-- JS `a || b` for an optional string `a`: `undefined` and the empty
string are falsy and fall through to `b`. -/
def jsOrStr (a : Option String) (b : String) : String :=
  match a with
  | some s => if s = "" then b else s
  | none => b

/-- JS `a ?? b` (nullish coalescing): only `undefined`/`null` fall
through; any present value, including `0`, `""` and `false`, wins. -/
def jsNullish {α : Type} (a : Option α) (b : Option α) : Option α :=
  match a with
  | some x => some x
  | none => b

/-- JS `a || b` for an optional number `a`: `undefined` and `0` are falsy
and fall through to `b`. -/
def jsOrNat (a : Option Nat) (b : Nat) : Nat :=
  match a with
  | some n => if n = 0 then b else n
  | none => b

/-- JS `s.toLowerCase()`: lowercase every character (modelled through
the character list so that it evaluates by kernel reduction; identical
to `String.toLower`, which maps `Char.toLower` over the string). -/
def strToLower (s : String) : String := (s.toList.map Char.toLower).asString

/-- JS `hay.includes(needle)`: substring containment (true for the empty
needle, as in JS). -/
def strContains (hay needle : String) : Bool :=
  hay.toList.tails.any (fun t => needle.toList.isPrefixOf t)

/-! ## Data model (`types.ts`) -/

/-- Constant `DEFAULT_CONFIG.maxResults` from `types.ts`. -/
def DEFAULT_CONFIG_maxResults : Nat := 30

/-- Constant `DEFAULT_CONFIG.concurrencyLimit` from `types.ts`. -/
def DEFAULT_CONFIG_concurrencyLimit : Nat := 5

/-- The optional `location` object of a place:
`{ latitude?: number; longitude?: number }`.  Coordinates are rationals
(the code only compares and passes them around; the transcendental
haversine arithmetic casts them to `ℝ`). -/
structure PlaceLocation where
  latitude : Option ℚ
  longitude : Option ℚ
deriving DecidableEq

/-- Embedding of `regularOpeningHours` — only the `openNow` flag is consumed by the
result builder. -/
structure RegularOpeningHours where
  openNow : Option Bool
deriving DecidableEq

/-- Embedding of `NearbySearchPlace` from `types.ts`.  `displayName` models the nested
`displayName?.text` (always accessed through optional chaining, so the
two levels of optionality collapse observably); `types` is the optional
`types?: string[]` array. -/
structure NearbySearchPlace where
  id : String
  displayName : Option String
  formattedAddress : Option String
  location : Option PlaceLocation
  rating : Option ℚ
  userRatingCount : Option Nat
  regularOpeningHours : Option RegularOpeningHours
  types : Option (List String)
deriving DecidableEq

/-- One `GoogleReview` from `types.ts`, restricted to the fields read by
`buildTurfResult` (`authorAttribution?.displayName`, `rating`,
`relativePublishTimeDescription`, `text?.text`, `originalText?.text`). -/
structure GoogleReview where
  authorName : Option String
  rating : Option ℚ
  relativePublishTimeDescription : Option String
  text : Option String
  originalText : Option String
deriving DecidableEq

/-- Embedding of `PlaceDetailsResponse` from `types.ts`, restricted to the fields read
by `buildTurfResult`. -/
structure PlaceDetailsResponse where
  id : String
  displayName : Option String
  formattedAddress : Option String
  nationalPhoneNumber : Option String
  internationalPhoneNumber : Option String
  location : Option PlaceLocation
  rating : Option ℚ
  userRatingCount : Option Nat
  reviews : Option (List GoogleReview)
  regularOpeningHours : Option RegularOpeningHours
  googleMapsUri : Option String
deriving DecidableEq

/-! ## TTL cache key generation (`cache.ts`, `TtlCache.generateKey`)

A JS parameter record `Record<string, unknown>` is modelled as an
association list of keys to already-serialized values (`JSON.stringify`
is deterministic per value, so serialization is treated as the identity
on the stored string).  JS objects cannot hold duplicate keys, so the
interesting inputs have `Nodup` keys. -/

/-- Embedding of `TtlCache.generateKey`: sort the keys alphabetically, render each as
`key=value`, join with `&`. -/
def generateKey (params : List (String × String)) : String :=
  String.intercalate "&"
    ((List.insertionSort (· ≤ ·) (params.map Prod.fst)).map
      (fun key => key ++ "=" ++ ((params.lookup key).getD "")))

/-! ## Result builder (`index.ts`) -/

/-- Embedding of `truncateText` from `index.ts`:
`if (text.length <= maxLength) return text;
 return text.substring(0, maxLength - 3) + '...';` -/
def truncateText (text : String) (maxLength : Nat) : String :=
  if text.length ≤ maxLength then text
  else ((text.toList.take (maxLength - 3)) ++ [ '.', '.', '.' ]).asString

/-- One review of the output shape `TurfReview`. -/
structure TurfReview where
  author : String
  rating : Option ℚ
  relativeTime : String
  text : String
deriving DecidableEq

/-- The output shape `TurfResult` (the fields produced by
`buildTurfResult`; `distanceKm` is carried through unchanged). -/
structure TurfResult where
  placeId : String
  name : String
  distanceKm : ℚ
  address : String
  mapsUrl : String
  phone : Option String
  openNow : Option Bool
  rating : Option ℚ
  userRatingsTotal : Option Nat
  topReviews : List TurfReview
deriving DecidableEq

/-- Embedding of `buildTurfResult` from `index.ts`.  String-typed fields are resolved
with JS `||` (empty string falls through); `rating`, `userRatingCount`,
`openNow` and the coordinates are resolved with JS `??` (only
`null`/`undefined` falls through).  The photo-URL field is omitted (it
only splices the API key into fixed URL templates). -/
def buildTurfResult (place : NearbySearchPlace) (details : Option PlaceDetailsResponse)
    (distanceKm : ℚ) : TurfResult :=
  let name := jsOrStr (details.bind PlaceDetailsResponse.displayName)
    (jsOrStr place.displayName "Unknown")
  let address := jsOrStr (details.bind PlaceDetailsResponse.formattedAddress)
    (jsOrStr place.formattedAddress "Address not available")
  let intl := details.bind PlaceDetailsResponse.internationalPhoneNumber
  let natl := details.bind PlaceDetailsResponse.nationalPhoneNumber
  let phone : Option String :=
    match intl with
    | some s =>
      if s = "" then
        match natl with
        | some t => if t = "" then none else some t
        | none => none
      else some s
    | none =>
      match natl with
      | some t => if t = "" then none else some t
      | none => none
  let mapsUrl := jsOrStr (details.bind PlaceDetailsResponse.googleMapsUri)
    ("https://www.google.com/maps/place/?q=place_id:" ++ place.id)
  let openNow := jsNullish
    ((details.bind PlaceDetailsResponse.regularOpeningHours).bind RegularOpeningHours.openNow)
    (place.regularOpeningHours.bind RegularOpeningHours.openNow)
  let rating := jsNullish (details.bind PlaceDetailsResponse.rating) place.rating
  let userRatingsTotal :=
    jsNullish (details.bind PlaceDetailsResponse.userRatingCount) place.userRatingCount
  let topReviews := (((details.bind PlaceDetailsResponse.reviews).getD []).take 3).map
    (fun review =>
      { author := jsOrStr review.authorName "Anonymous"
        rating := jsNullish review.rating none
        relativeTime := jsOrStr review.relativePublishTimeDescription ""
        text := truncateText (jsOrStr review.text (jsOrStr review.originalText "")) 240 })
  { placeId := place.id
    name := name
    distanceKm := distanceKm
    address := address
    mapsUrl := mapsUrl
    phone := phone
    openNow := openNow
    rating := rating
    userRatingsTotal := userRatingsTotal
    topReviews := topReviews }

/-! ## Remote client: search request construction (`google.ts`) -/

/-- Embedding of `NearbySearchOptions` from `google.ts` (the fields that shape the
request body; `includedTypes` kept for completeness). -/
structure NearbySearchOptions where
  lat : ℚ
  lng : ℚ
  radiusMeters : ℚ
  includedTypes : List String
  maxResultCount : Option Nat
deriving DecidableEq

/-- Embedding of `TextSearchOptions` from `google.ts`. -/
structure TextSearchOptions where
  textQuery : String
  lat : ℚ
  lng : ℚ
  radiusMeters : ℚ
  maxResultCount : Option Nat
deriving DecidableEq

/-- The part of the Places request body relevant to the region and page
cap: `locationRestriction.circle` and `maxResultCount`. -/
structure SearchRequestBody where
  centerLat : ℚ
  centerLng : ℚ
  radius : ℚ
  maxResultCount : Nat
deriving DecidableEq

/-- The request body built by `nearbySearch`:
`radius: Math.min(options.radiusMeters, 50000)` and
`maxResultCount: options.maxResultCount || DEFAULT_CONFIG.maxResults`. -/
def nearbySearchRequestBody (options : NearbySearchOptions) : SearchRequestBody :=
  { centerLat := options.lat
    centerLng := options.lng
    radius := min options.radiusMeters 50000
    maxResultCount := jsOrNat options.maxResultCount DEFAULT_CONFIG_maxResults }

/-- The request body built by `textSearch` (same region/page fields as
the nearby variant, plus the text query which does not shape them). -/
def textSearchRequestBody (options : TextSearchOptions) : SearchRequestBody :=
  { centerLat := options.lat
    centerLng := options.lng
    radius := min options.radiusMeters 50000
    maxResultCount := jsOrNat options.maxResultCount DEFAULT_CONFIG_maxResults }

/-- The options `searchTurfs` passes to its seed `nearbySearch` call:
`includedTypes: ['sports_club', 'sports_complex', 'stadium', 'gym']`,
`maxResultCount: Math.min(20, maxResults)`. -/
def searchTurfsNearbyOptions (lat lng radiusMeters : ℚ) (maxResults : Nat) :
    NearbySearchOptions :=
  { lat := lat
    lng := lng
    radiusMeters := radiusMeters
    includedTypes := ["sports_club", "sports_complex", "stadium", "gym"]
    maxResultCount := some (min 20 maxResults) }

/-- The options `searchTurfs` passes to each keyword `textSearch` call:
`maxResultCount: Math.min(20, maxResults)`. -/
def searchTurfsTextOptions (keyword : String) (lat lng radiusMeters : ℚ)
    (maxResults : Nat) : TextSearchOptions :=
  { textQuery := keyword
    lat := lat
    lng := lng
    radiusMeters := radiusMeters
    maxResultCount := some (min 20 maxResults) }

/-! ## Exclusion filter (`google.ts`, `filterTurfResults`) -/

/-- Constant `DEFAULT_TURF_KEYWORDS` from `google.ts`. -/
def DEFAULT_TURF_KEYWORDS : List String :=
  ["turf", "football turf", "box cricket", "turf ground", "sports turf",
   "cricket ground", "football ground", "futsal", "five a side football",
   "seven a side football"]

/-- Constant `EXCLUDE_KEYWORDS` from `google.ts`. -/
def EXCLUDE_KEYWORDS : List String :=
  ["bowling", "bowl", "arcade", "gaming zone", "game zone", "virtual reality",
   "vr arena", "laser tag", "escape room", "trampoline", "go kart", "karting",
   "billiard", "pool table", "snooker", "paintball", "shooting range",
   "ice skating", "roller skating", "spa", "salon", "restaurant", "cafe",
   "bar", "pub", "lounge"]

/-- The `excludeTypes` list hardcoded inside `filterTurfResults`. -/
def EXCLUDE_TYPES : List String :=
  ["bowling_alley", "amusement_center", "movie_theater", "night_club",
   "casino", "bar", "restaurant", "cafe"]

/-- Embedding of `filterTurfResults` from `google.ts`: keep a place only if its
lowercased display name (`place.displayName?.text || ''`) contains no
exclusion keyword and its types (`place.types || []`) contain no
exclusion type code. -/
def filterTurfResults (places : List NearbySearchPlace) : List NearbySearchPlace :=
  places.filter (fun place =>
    let name := strToLower (jsOrStr place.displayName "")
    let types := place.types.getD []
    !(EXCLUDE_KEYWORDS.any (fun keyword => strContains name keyword)) &&
    !(EXCLUDE_TYPES.any (fun ty => types.contains ty)))

/-! ## Search aggregator (`google.ts`, `searchTurfs`)

The two remote search calls are stubbed by their results: the seed
`nearbySearch` outcome is an `Option (List NearbySearchPlace)` (`none`
models the caught failure, which the code logs and degrades to an empty
contribution) and each keyword `textSearch` outcome is given by a
function `String → Option (List NearbySearchPlace)` (`none` models a
caught per-keyword failure — the loop continues, and in that branch the
early-stop check is skipped because it sits inside the `try` block).
A `PassRecord` instruments one issued `textSearch` call with the length
of `allPlaces` before the call, whether the call succeeded, and the
length after merging. -/

/-- One issued keyword `textSearch` pass: the keyword, `allPlaces.length`
just before the call, whether the stubbed call succeeded, and
`allPlaces.length` after merging its results. -/
structure PassRecord where
  keyword : String
  countBefore : Nat
  ok : Bool
  countAfter : Nat
deriving DecidableEq

/-- The per-pass merge loop of `searchTurfs`:
`for (const place of places) if (!seenPlaceIds.has(place.id)) { add; push }`.
The JS `Set<string>` is modelled as a list with membership test and
cons-insert. -/
def dedupInsert : List String → List NearbySearchPlace → List NearbySearchPlace →
    List String × List NearbySearchPlace
  | seen, acc, [] => (seen, acc)
  | seen, acc, place :: rest =>
    if seen.contains place.id then dedupInsert seen acc rest
    else dedupInsert (place.id :: seen) (acc ++ [place]) rest

/-- The keyword loop of `searchTurfs`.  Returns the final `allPlaces`,
the trace of issued passes, and the raw concatenation of all successful
pass results (instrumentation used to state deduplication).  After a
successful pass the loop breaks when `allPlaces.length >= maxResults`;
a failed pass is caught and the loop continues without that check. -/
def searchLoop (textStub : String → Option (List NearbySearchPlace)) (maxResults : Nat) :
    List String → List String → List NearbySearchPlace →
    List NearbySearchPlace × List PassRecord × List NearbySearchPlace
  | [], _, acc => (acc, [], [])
  | keyword :: rest, seen, acc =>
    match textStub keyword with
    | none =>
      let r := searchLoop textStub maxResults rest seen acc
      (r.1, ⟨keyword, acc.length, false, acc.length⟩ :: r.2.1, r.2.2)
    | some places =>
      let merged := dedupInsert seen acc places
      if maxResults ≤ merged.2.length then
        (merged.2, [⟨keyword, acc.length, true, merged.2.length⟩], places)
      else
        let r := searchLoop textStub maxResults rest merged.1 merged.2
        (r.1, ⟨keyword, acc.length, true, merged.2.length⟩ :: r.2.1, places ++ r.2.2)

/-- The observable outcome of one `searchTurfs` run: `merged` is
`allPlaces` after the loop, `passes` the instrumented `textSearch`
calls, `raw` the concatenation of the seed results and all successful
pass results in discovery order, and `result` the returned list
(`filterTurfResults(allPlaces).slice(0, maxResults)`). -/
structure SearchRun where
  merged : List NearbySearchPlace
  passes : List PassRecord
  raw : List NearbySearchPlace
  result : List NearbySearchPlace

/-- Embedding of `searchTurfs` from `google.ts`, with the two remote operations
stubbed by their outcomes.  The keyword list puts a custom keyword first
followed by `DEFAULT_TURF_KEYWORDS` without it; the seed `nearbySearch`
results are merged first; then the keyword loop runs; finally the merged
list is filtered and truncated to `maxResults`. -/
def searchTurfsModel (nearbyStub : Option (List NearbySearchPlace))
    (textStub : String → Option (List NearbySearchPlace))
    (customKeyword : Option String) (maxResults : Nat) : SearchRun :=
  let keywords :=
    match customKeyword with
    | some ck => ck :: DEFAULT_TURF_KEYWORDS.filter (fun k => k ≠ ck)
    | none => DEFAULT_TURF_KEYWORDS
  let nearbyPlaces := nearbyStub.getD []
  let seeded := dedupInsert [] [] nearbyPlaces
  let r := searchLoop textStub maxResults keywords seeded.1 seeded.2
  { merged := r.1
    passes := r.2.1
    raw := nearbyPlaces ++ r.2.2
    result := (filterTurfResults r.1).take maxResults }

/-! ## Place details batch (`google.ts`) -/

/-- The outcome of one remote detail fetch, as observed by
`getPlaceDetails`: a parsed body, a non-success HTTP status, or a
transport error thrown before a response was obtained. -/
inductive FetchOutcome where
  | success (data : PlaceDetailsResponse)
  | httpFailure (status : Nat)
  | transportError (message : String)

/-- Embedding of `getPlaceDetails` from `google.ts` with the fetch stubbed: a
non-success status logs a warning and returns `null`; a thrown transport
error is caught and returns `null`.  (The details cache is elided: a
cache hit returns the same successfully fetched body.) -/
def getPlaceDetails (fetchStub : String → FetchOutcome) (placeId : String) :
    Option PlaceDetailsResponse :=
  match fetchStub placeId with
  | .success data => some data
  | .httpFailure _ => none
  | .transportError _ => none

/-- Embedding of `getPlaceDetailsBatch` from `google.ts`: resolve `getPlaceDetails`
for every id and collect the outcomes into an id-keyed mapping (modelled
as an association list; completion order is irrelevant to the mapping,
so the p-limit scheduling is not represented). -/
def getPlaceDetailsBatch (fetchStub : String → FetchOutcome) (placeIds : List String) :
    List (String × Option PlaceDetailsResponse) :=
  placeIds.map (fun placeId => (placeId, getPlaceDetails fetchStub placeId))

/-! ## Distance utility (`distance.ts`) and the distance step of `main`
(`index.ts`)

The haversine arithmetic is over `ℝ` (the JS code computes with IEEE
doubles; the claims about it are the exact algebraic identities, stated
here over the reals). -/

/-- Embedding of `LatLng` as consumed by the distance utility. -/
structure LatLng where
  lat : ℝ
  lng : ℝ

/-- Constant `EARTH_RADIUS_KM` from `distance.ts`. -/
noncomputable def EARTH_RADIUS_KM : ℝ := 6371

/-- Embedding of `toRadians` from `distance.ts`: `degrees * (Math.PI / 180)`. -/
noncomputable def toRadians (degrees : ℝ) : ℝ := degrees * (Real.pi / 180)

/-- JS `Math.atan2(y, x)`: the argument of the complex number `x + y*i`,
in `(-π, π]`. -/
noncomputable def atan2 (y x : ℝ) : ℝ := Complex.arg ⟨x, y⟩

/-- The intermediate `a` of `haversineDistance`:
`sin(Δlat/2)² + cos(lat1)·cos(lat2)·sin(Δlng/2)²`. -/
noncomputable def haversineA (point1 point2 : LatLng) : ℝ :=
  let lat1Rad := toRadians point1.lat
  let lat2Rad := toRadians point2.lat
  let deltaLat := toRadians (point2.lat - point1.lat)
  let deltaLng := toRadians (point2.lng - point1.lng)
  Real.sin (deltaLat / 2) * Real.sin (deltaLat / 2) +
    Real.cos lat1Rad * Real.cos lat2Rad *
      Real.sin (deltaLng / 2) * Real.sin (deltaLng / 2)

/-- Embedding of `haversineDistance` from `distance.ts`:
`c = 2 * atan2(sqrt(a), sqrt(1 - a)); return EARTH_RADIUS_KM * c`. -/
noncomputable def haversineDistance (point1 point2 : LatLng) : ℝ :=
  let a := haversineA point1 point2
  let c := 2 * atan2 (Real.sqrt a) (Real.sqrt (1 - a))
  EARTH_RADIUS_KM * c

/-- Embedding of `roundDistance` from `distance.ts`: `Math.round(d * 100) / 100`,
with `Math.round` the round-half-up `⌊x + 1/2⌋`. -/
noncomputable def roundDistance (distanceKm : ℝ) : ℝ :=
  (round (distanceKm * 100) : ℤ) / 100

/-- The per-place distance computation of `main` (`index.ts`):
`placeLat = place.location?.latitude; placeLng = place.location?.longitude;
 if (!placeLat || !placeLng) distanceKm = Infinity` — a JS falsy check,
so a coordinate that is absent **or equal to 0** yields `Infinity`
(modelled as `⊤` in `WithTop ℝ`); otherwise the rounded haversine
distance from the query point. -/
noncomputable def computeDistanceKm (query : LatLng) (place : NearbySearchPlace) :
    WithTop ℝ :=
  let placeLat := place.location.bind PlaceLocation.latitude
  let placeLng := place.location.bind PlaceLocation.longitude
  match placeLat, placeLng with
  | some lat, some lng =>
    if lat = 0 ∨ lng = 0 then ⊤
    else ((roundDistance (haversineDistance query ⟨(lat : ℝ), (lng : ℝ)⟩) : ℝ) : WithTop ℝ)
  | some _, none => ⊤
  | none, _ => ⊤

/-- The distance step of `main` (`index.ts`): map each place to its
distance, keep those with `distanceKm <= radiusKm`, and sort ascending
by distance (`placesWithDistance`). -/
noncomputable def mainPlacesWithDistance (query : LatLng) (radiusKm : ℝ)
    (places : List NearbySearchPlace) : List (NearbySearchPlace × WithTop ℝ) :=
  List.insertionSort (fun p q => p.2 ≤ q.2)
    ((places.map (fun place => (place, computeDistanceKm query place))).filter
      (fun p => decide (p.2 ≤ (radiusKm : WithTop ℝ))))

/-! ## Spec-side definitions

These definitions follow the specification's words (first-occurrence
deduplication, the OR of the two exclusion checks, JS-falsiness of an
optional string) and are compared against the source embeddings above. -/

/-- Spec-side deduplication: keep each identifier exactly once, retaining
the first-seen copy and discarding every later sighting wholesale. -/
def dedupById (l : List NearbySearchPlace) : List NearbySearchPlace :=
  match l with
  | [] => []
  | place :: rest =>
    place :: dedupById (rest.filter (fun q => !(q.id == place.id)))
termination_by l.length
decreasing_by
  simp only [List.length_cons]
  exact Nat.lt_succ_of_le (List.length_filter_le _ _)

/-- One step of first-occurrence accumulation: append the place unless a
place with its id is already accumulated. -/
def addUnique (acc : List NearbySearchPlace) (place : NearbySearchPlace) :
    List NearbySearchPlace :=
  if acc.any (fun q => q.id == place.id) then acc else acc ++ [place]

/-- Spec-side name check: the (lowercased, `||`-defaulted) display name
contains some exclusion keyword, compared case-insensitively (every
entry of `EXCLUDE_KEYWORDS` is already lowercase, which the claim C4
theorem exploits). -/
def nameMatchesExclusion (place : NearbySearchPlace) : Prop :=
  ∃ keyword ∈ EXCLUDE_KEYWORDS,
    strContains (strToLower (jsOrStr place.displayName "")) (strToLower keyword) = true

/-- Spec-side type check: the place's type codes intersect the fixed
exclusion type-code list. -/
def typeMatchesExclusion (place : NearbySearchPlace) : Prop :=
  ∃ ty ∈ EXCLUDE_TYPES, ty ∈ place.types.getD []

/-- JS falsiness of an optional string: absent or empty. -/
def strFalsy (o : Option String) : Prop := o = none ∨ o = some ""

/-! ## Concrete sample inputs for witnesses and counterexamples -/

/-- A minimal place summary (only an id). -/
def samplePlaceA : NearbySearchPlace :=
  { id := "a", displayName := none, formattedAddress := none, location := none,
    rating := none, userRatingCount := none, regularOpeningHours := none,
    types := none }

/-- A place named after a bowling alley, typed as a stadium. -/
def sampleBowlingPlace : NearbySearchPlace :=
  { id := "b", displayName := some "XYZ Bowling Alley", formattedAddress := none,
    location := none, rating := none, userRatingCount := none,
    regularOpeningHours := none, types := some ["stadium"] }

/-- A place with a turf-like name but typed `restaurant`. -/
def sampleRestaurantPlace : NearbySearchPlace :=
  { id := "r", displayName := some "Green Turf Ground", formattedAddress := none,
    location := none, rating := none, userRatingCount := none,
    regularOpeningHours := none, types := some ["restaurant"] }

/-- A place whose reported latitude is the (valid) coordinate `0`. -/
def sampleZeroLatPlace : NearbySearchPlace :=
  { id := "z", displayName := none, formattedAddress := none,
    location := some { latitude := some 0, longitude := some 1 },
    rating := none, userRatingCount := none, regularOpeningHours := none,
    types := none }

/-- A summary record carrying a name and a rating of 4.0. -/
def sampleSummaryPlace : NearbySearchPlace :=
  { id := "p1", displayName := some "Summary Name", formattedAddress := none,
    location := none, rating := some 4, userRatingCount := none,
    regularOpeningHours := none, types := none }

/-- A detail record whose display name is present but empty, with a
rating of 4.5. -/
def sampleDetailRecord : PlaceDetailsResponse :=
  { id := "p1", displayName := some "", formattedAddress := none,
    nationalPhoneNumber := none, internationalPhoneNumber := none,
    location := none, rating := some (9 / 2), userRatingCount := none,
    reviews := none, regularOpeningHours := none, googleMapsUri := none }

/-- A detail record with no rating at all. -/
def sampleDetailNoRating : PlaceDetailsResponse :=
  { id := "p2", displayName := none, formattedAddress := none,
    nationalPhoneNumber := none, internationalPhoneNumber := none,
    location := none, rating := none, userRatingCount := none,
    reviews := none, regularOpeningHours := none, googleMapsUri := none }

/-- A summary record with rating 3.8. -/
def sampleSummaryRating38 : NearbySearchPlace :=
  { id := "p2", displayName := none, formattedAddress := none, location := none,
    rating := some (19 / 5), userRatingCount := none,
    regularOpeningHours := none, types := none }

/-- A fetch stub where id `"x"` fails with HTTP 500, id `"t"` fails in
transport, and everything else succeeds with `sampleDetailNoRating`. -/
def sampleFetchStub : String → FetchOutcome :=
  fun placeId =>
    if placeId = "x" then FetchOutcome.httpFailure 500
    else if placeId = "t" then FetchOutcome.transportError "boom"
    else FetchOutcome.success sampleDetailNoRating

/-! ## Theorems -/

/-- Claim C5: for every review text, if the text is longer than 240
characters the truncated output is exactly 240 characters long and ends
in the ellipsis marker `...`; a text of at most 240 characters is
returned unchanged. -/
theorem c5_truncateText_spec (text : String) :
    (240 < text.length →
      (truncateText text 240).length = 240 ∧
      [ '.', '.', '.' ] <:+ (truncateText text 240).toList) ∧
    (text.length ≤ 240 → truncateText text 240 = text) := by
  constructor
  · intro h
    have hnot : ¬ text.length ≤ 240 := by omega
    have hlen : ∀ l : List Char, (List.asString l).length = l.length := fun _ => rfl
    have hlist : ∀ l : List Char, (List.asString l).toList = l := fun _ => rfl
    constructor
    · simp only [truncateText, if_neg hnot]
      rw [hlen, List.length_append, List.length_take]
      have htl : text.length = text.toList.length := rfl
      simp only [List.length_cons, List.length_nil]
      omega
    · simp only [truncateText, if_neg hnot]
      rw [hlist]
      exact List.suffix_append _ _
  · intro h
    simp [truncateText, h]

/-- Claim C5 witness: a 300-character text truncates to exactly 240
characters; a 100-character text is unchanged. -/
theorem c5_witness :
    (truncateText (List.asString (List.replicate 300 'a')) 240).length = 240 ∧
    truncateText (List.asString (List.replicate 100 'a')) 240 =
      List.asString (List.replicate 100 'a') :=
  ⟨((c5_truncateText_spec (List.asString (List.replicate 300 'a'))).1 (by
      have h : (List.asString (List.replicate 300 'a')).length =
          (List.replicate 300 'a').length := rfl
      rw [h, List.length_replicate]
      omega)).1,
    (c5_truncateText_spec (List.asString (List.replicate 100 'a'))).2 (by
      have h : (List.asString (List.replicate 100 'a')).length =
          (List.replicate 100 'a').length := rfl
      rw [h, List.length_replicate]
      omega)⟩

/-- Claim C1 counterexample: the claim says every search call requests at
most the provider page maximum of 20 results, but the request body uses
`options.maxResultCount || DEFAULT_CONFIG.maxResults`, so the call
`searchTurfs` issues with `maxResults = 0` (and likewise any direct call
with `maxResultCount` absent) requests `DEFAULT_CONFIG.maxResults = 30`
results. -/
theorem c1_counterexample :
    (textSearchRequestBody (searchTurfsTextOptions "turf" 0 0 5000 0)).maxResultCount
        = 30 ∧
    ¬ ((textSearchRequestBody
        (searchTurfsTextOptions "turf" 0 0 5000 0)).maxResultCount ≤ 20) := by
  constructor
  · rfl
  · decide

/-- Claim C1 amended: both search variants always cap the requested
radius at 50000 m; the page size requested by the calls `searchTurfs`
issues is `min 20 maxResults`, which is at most 20 whenever
`maxResults ≥ 1`; with `maxResultCount` absent (or zero, as issued by
`searchTurfs` when `maxResults = 0`) the request instead carries
`DEFAULT_CONFIG.maxResults = 30`. -/
theorem c1_amended (o₁ : NearbySearchOptions) (o₂ : TextSearchOptions)
    (keyword : String) (lat lng radiusMeters : ℚ) (maxResults : Nat) :
    (nearbySearchRequestBody o₁).radius ≤ 50000 ∧
    (textSearchRequestBody o₂).radius ≤ 50000 ∧
    (1 ≤ maxResults →
      (nearbySearchRequestBody
        (searchTurfsNearbyOptions lat lng radiusMeters maxResults)).maxResultCount ≤ 20 ∧
      (textSearchRequestBody
        (searchTurfsTextOptions keyword lat lng radiusMeters maxResults)).maxResultCount ≤ 20) ∧
    (nearbySearchRequestBody
      { o₁ with maxResultCount := none }).maxResultCount = DEFAULT_CONFIG_maxResults := by
  refine ⟨min_le_right _ _, min_le_right _ _, fun h => ?_, rfl⟩
  have hmin : ¬ (min 20 maxResults = 0) := by omega
  constructor
  · show jsOrNat (some (min 20 maxResults)) DEFAULT_CONFIG_maxResults ≤ 20
    simp only [jsOrNat, if_neg hmin]
    exact min_le_left _ _
  · show jsOrNat (some (min 20 maxResults)) DEFAULT_CONFIG_maxResults ≤ 20
    simp only [jsOrNat, if_neg hmin]
    exact min_le_left _ _

/-- Claim C1 witness: with `maxResults = 5` both request bodies issued by
`searchTurfs` carry a page size of at most 20. -/
theorem c1_witness :
    (nearbySearchRequestBody (searchTurfsNearbyOptions 0 0 5000 5)).maxResultCount ≤ 20 ∧
    (textSearchRequestBody (searchTurfsTextOptions "turf" 0 0 5000 5)).maxResultCount ≤ 20 :=
  (c1_amended ⟨0, 0, 5000, [], none⟩ ⟨"turf", 0, 0, 5000, none⟩
    "turf" 0 0 5000 5).2.2.1 (by decide)

/-- The intermediate haversine term is symmetric in its two points:
`sin²` kills the sign of the negated deltas and the cosine product
commutes. -/
theorem haversineA_symm (a b : LatLng) : haversineA a b = haversineA b a := by
  simp only [haversineA, toRadians]
  have h1 : (a.lat - b.lat) * (Real.pi / 180) / 2 =
      -((b.lat - a.lat) * (Real.pi / 180) / 2) := by ring
  have h2 : (a.lng - b.lng) * (Real.pi / 180) / 2 =
      -((b.lng - a.lng) * (Real.pi / 180) / 2) := by ring
  rw [h1, h2, Real.sin_neg, Real.sin_neg]
  ring

/-- Claim C9: the haversine distance is symmetric, and the distance from
a point to itself is zero. -/
theorem c9_haversine_symm_zero (a b : LatLng) :
    haversineDistance a b = haversineDistance b a ∧ haversineDistance a a = 0 := by
  constructor
  · simp only [haversineDistance]
    rw [haversineA_symm]
  · simp only [haversineDistance]
    have hA : haversineA a a = 0 := by
      simp [haversineA, toRadians]
    rw [hA, Real.sqrt_zero, sub_zero, Real.sqrt_one]
    have harg : atan2 0 1 = 0 := by
      unfold atan2
      have hone : (⟨1, 0⟩ : ℂ) = 1 := by
        apply Complex.ext <;> simp
      rw [hone, Complex.arg_one]
    rw [harg, mul_zero, mul_zero]

/-- Claim C10: a place whose reported latitude or longitude is absent
**or zero** is given distance `Infinity` by the falsy check in `main`
and is therefore never in the radius-filtered final output, even though
0 is a valid coordinate. -/
theorem c10_falsy_zero_excluded (query : LatLng) (radiusKm : ℝ)
    (places : List NearbySearchPlace) (place : NearbySearchPlace)
    (hfalsy : place.location.bind PlaceLocation.latitude = none ∨
      place.location.bind PlaceLocation.latitude = some 0 ∨
      place.location.bind PlaceLocation.longitude = none ∨
      place.location.bind PlaceLocation.longitude = some 0) :
    computeDistanceKm query place = ⊤ ∧
    ∀ entry ∈ mainPlacesWithDistance query radiusKm places, entry.1 ≠ place := by
  have htop : computeDistanceKm query place = ⊤ := by
    cases hlat : place.location.bind PlaceLocation.latitude with
    | none => simp [computeDistanceKm, hlat]
    | some lat =>
      cases hlng : place.location.bind PlaceLocation.longitude with
      | none => simp [computeDistanceKm, hlat, hlng]
      | some lng =>
        have hz : lat = 0 ∨ lng = 0 := by
          rcases hfalsy with h | h | h | h
          · rw [hlat] at h; cases h
          · rw [hlat] at h; exact Or.inl (Option.some_injective _ h.symm).symm
          · rw [hlng] at h; cases h
          · rw [hlng] at h; exact Or.inr (Option.some_injective _ h.symm).symm
        simp [computeDistanceKm, hlat, hlng, hz]
  refine ⟨htop, ?_⟩
  intro entry hentry heq
  unfold mainPlacesWithDistance at hentry
  rw [List.mem_insertionSort] at hentry
  obtain ⟨hmem_map, hcond⟩ := List.mem_filter.mp hentry
  obtain ⟨pl, _, hpair⟩ := List.mem_map.mp hmem_map
  have hfst : entry.1 = pl := by rw [← hpair]
  have hsnd : entry.2 = computeDistanceKm query pl := by rw [← hpair]
  have hpl : pl = place := by rw [← hfst]; exact heq
  have h2 : entry.2 = ⊤ := by rw [hsnd, hpl, htop]
  have hle : entry.2 ≤ ((radiusKm : ℝ) : WithTop ℝ) := of_decide_eq_true hcond
  rw [h2] at hle
  exact WithTop.coe_ne_top (top_le_iff.mp hle)

/-- Claim C10 witness: the concrete place with latitude 0 gets distance
`⊤` and is excluded from the final output of a 5 km search. -/
theorem c10_witness :
    computeDistanceKm ⟨0, 0⟩ sampleZeroLatPlace = ⊤ ∧
    ∀ entry ∈ mainPlacesWithDistance ⟨0, 0⟩ 5 [sampleZeroLatPlace],
      entry.1 ≠ sampleZeroLatPlace :=
  c10_falsy_zero_excluded ⟨0, 0⟩ 5 [sampleZeroLatPlace] sampleZeroLatPlace
    (Or.inr (Or.inl rfl))

/-- Looking up a key in the graph of a function over a list containing
that key yields the function's value. -/
theorem lookup_map_graph {β : Type} (f : String → β) :
    ∀ (l : List String) (a : String), a ∈ l →
      (l.map (fun x => (x, f x))).lookup a = some (f a) := by
  intro l
  induction l with
  | nil => intro a h; cases h
  | cons x xs ih =>
    intro a h
    by_cases hx : x = a
    · subst hx
      simp [List.lookup]
    · have hbeq : (a == x) = false := by simp [Ne.symm hx]
      rcases List.mem_cons.mp h with h1 | h2
      · exact absurd h1.symm hx
      · simp only [List.map_cons, List.lookup, hbeq]
        exact ih a h2

/-- Claim C7: the details batch resolves every requested id — the
returned mapping has one entry per id, each bound to the outcome of its
own detail fetch — and an individual fetch failing with a non-success
status or a transport error resolves to `null` for that id instead of
raising, so it never aborts the batch. -/
theorem c7_batch_complete (fetchStub : String → FetchOutcome) (placeIds : List String) :
    (getPlaceDetailsBatch fetchStub placeIds).length = placeIds.length ∧
    (∀ placeId ∈ placeIds,
      (getPlaceDetailsBatch fetchStub placeIds).lookup placeId =
        some (getPlaceDetails fetchStub placeId)) ∧
    (∀ placeId status, fetchStub placeId = FetchOutcome.httpFailure status →
      getPlaceDetails fetchStub placeId = none) ∧
    (∀ placeId message, fetchStub placeId = FetchOutcome.transportError message →
      getPlaceDetails fetchStub placeId = none) := by
  refine ⟨List.length_map _ _, ?_, ?_, ?_⟩
  · intro placeId hmem
    exact lookup_map_graph _ placeIds placeId hmem
  · intro placeId status h
    simp [getPlaceDetails, h]
  · intro placeId message h
    simp [getPlaceDetails, h]

/-- Claim C7 witness: in a batch over ids `"x"` (HTTP failure), `"t"`
(transport error) and `"ok"` (success), every id is present in the
result, the failing ids map to `null` and the successful id to its
detail record. -/
theorem c7_witness :
    (getPlaceDetailsBatch sampleFetchStub ["x", "t", "ok"]).lookup "x" = some none ∧
    (getPlaceDetailsBatch sampleFetchStub ["x", "t", "ok"]).lookup "t" = some none ∧
    (getPlaceDetailsBatch sampleFetchStub ["x", "t", "ok"]).lookup "ok" =
      some (some sampleDetailNoRating) := by
  have h := c7_batch_complete sampleFetchStub ["x", "t", "ok"]
  refine ⟨?_, ?_, ?_⟩
  · rw [h.2.1 "x" (by simp), h.2.2.1 "x" 500 (by rfl)]
  · rw [h.2.1 "t" (by simp), h.2.2.2 "t" "boom" (by rfl)]
  · rw [h.2.1 "ok" (by simp)]
    rfl

/-- Association-list lookup is invariant under permutation when the keys
are duplicate-free. -/
theorem perm_lookup_eq {β : Type} :
    ∀ {l₁ l₂ : List (String × β)}, l₁.Perm l₂ → (l₁.map Prod.fst).Nodup →
      ∀ k, l₁.lookup k = l₂.lookup k := by
  intro l₁ l₂ hp
  induction hp with
  | nil => intro _ _; rfl
  | cons x _ ih =>
    intro hnd k
    have hnd' : ∀ {t : List (String × β)}, ((x :: t).map Prod.fst).Nodup →
        (t.map Prod.fst).Nodup := by
      intro t h
      exact (List.nodup_cons.mp h).2
    cases hx : (k == x.1) with
    | true => simp [List.lookup, hx]
    | false => simp only [List.lookup, hx]; exact ih (hnd' hnd) k
  | swap x y l =>
    intro hnd k
    have hxy : y.1 ≠ x.1 := by
      have h := hnd
      simp only [List.map_cons, List.nodup_cons] at h
      intro he
      exact h.1 (by simp [he])
    cases hky : (k == y.1) with
    | true =>
      have hkx : (k == x.1) = false := by
        have : k = y.1 := by simpa using hky
        subst this
        simpa using hxy
      simp [List.lookup, hky, hkx]
    | false =>
      cases hkx : (k == x.1) with
      | true => simp [List.lookup, hky, hkx]
      | false => simp [List.lookup, hky, hkx]
  | trans h₁ _ ih₁ ih₂ =>
    intro hnd k
    rw [ih₁ hnd k]
    exact ih₂ ((h₁.map Prod.fst).nodup_iff.mp hnd) k

/-- Claim C8: `TtlCache.generateKey` is order-independent — two parameter
records holding the same key-value pairs in different orders produce the
same key string, because the serialization sorts keys alphabetically. -/
theorem c8_generateKey_order_independent (p₁ p₂ : List (String × String))
    (hperm : p₁.Perm p₂) (hnd : (p₁.map Prod.fst).Nodup) :
    generateKey p₁ = generateKey p₂ := by
  unfold generateKey
  have hkeys : List.insertionSort (· ≤ ·) (p₁.map Prod.fst) =
      List.insertionSort (· ≤ ·) (p₂.map Prod.fst) :=
    List.eq_of_perm_of_sorted
      ((List.perm_insertionSort _ _).trans
        ((hperm.map Prod.fst).trans (List.perm_insertionSort _ _).symm))
      (List.sorted_insertionSort _ _) (List.sorted_insertionSort _ _)
  rw [hkeys]
  congr 1
  apply List.map_congr_left
  intro key _
  rw [perm_lookup_eq hperm hnd key]

/-- Claim C8 witness: `generateKey {a:1, b:2} = generateKey {b:2, a:1}`. -/
theorem c8_witness :
    generateKey [("a", "1"), ("b", "2")] = generateKey [("b", "2"), ("a", "1")] :=
  c8_generateKey_order_independent _ _
    (List.Perm.swap ("b", "2") ("a", "1") []) (by decide)

/-- Claim C4: the post-hoc filter removes exactly the places whose
display name case-insensitively contains an exclusion keyword or whose
type codes intersect the exclusion type list — an OR across the two
checks; in particular a place named "XYZ Bowling Alley" is removed
whatever its types, and a place typed `restaurant` is removed whatever
its name. -/
theorem c4_filter_exclusion (places : List NearbySearchPlace)
    (place : NearbySearchPlace) :
    (place ∈ filterTurfResults places ↔
      place ∈ places ∧ ¬ (nameMatchesExclusion place ∨ typeMatchesExclusion place)) ∧
    filterTurfResults [sampleBowlingPlace] = [] ∧
    filterTurfResults [sampleRestaurantPlace] = [] := by
  have hlow : ∀ kw ∈ EXCLUDE_KEYWORDS, strToLower kw = kw := by decide
  refine ⟨?_, by decide, by decide⟩
  simp only [filterTurfResults, List.mem_filter]
  apply and_congr_right
  intro _
  rw [Bool.and_eq_true, Bool.not_eq_true', Bool.not_eq_true']
  constructor
  · rintro ⟨h1, h2⟩ hbad
    rcases hbad with hname | htype
    · obtain ⟨kw, hkw, hc⟩ := hname
      rw [hlow kw hkw] at hc
      have ht := List.any_eq_true.mpr ⟨kw, hkw, hc⟩
      rw [h1] at ht
      exact Bool.false_ne_true ht
    · obtain ⟨ty, hty, hmem⟩ := htype
      have hcont : ((place.types.getD []).contains ty) = true := by
        simpa using hmem
      have ht := List.any_eq_true.mpr ⟨ty, hty, hcont⟩
      rw [h2] at ht
      exact Bool.false_ne_true ht
  · intro hnot
    constructor
    · rw [Bool.eq_false_iff]
      intro htrue
      obtain ⟨kw, hkw, hc⟩ := List.any_eq_true.mp htrue
      exact hnot (Or.inl ⟨kw, hkw, by rw [hlow kw hkw]; exact hc⟩)
    · rw [Bool.eq_false_iff]
      intro htrue
      obtain ⟨ty, hty, hc⟩ := List.any_eq_true.mp htrue
      exact hnot (Or.inr ⟨ty, hty, by simpa using hc⟩)

/-- Claim C6 counterexample: the claim says the detail record's value is
used whenever it is present, but the string-typed fields are resolved
with JS `||`: for a detail whose display name is present but empty, the
built result carries the summary's name instead of the present detail
value. -/
theorem c6_counterexample :
    sampleDetailRecord.displayName = some "" ∧
    (buildTurfResult sampleSummaryPlace (some sampleDetailRecord) 0).name =
      "Summary Name" ∧
    ("Summary Name" : String) ≠ "" := by
  refine ⟨rfl, rfl, by decide⟩

/-- Claim C6 amended: each output field is resolved independently by
detail-first, summary-fallback, fixed-sentinel — where for the
string-typed fields (name, address, phone) "present" means present and
non-empty (JS `||` lets an empty string fall through), while for
`rating` and open-status any present detail value wins (JS `??`).  The
sentinels are "Unknown" for name, "Address not available" for address,
`null` for rating, phone and open-status; in particular the claim's two
rating examples hold. -/
theorem c6_amended (place : NearbySearchPlace) (details : Option PlaceDetailsResponse)
    (distanceKm : ℚ) :
    (∀ x : ℚ, details.bind PlaceDetailsResponse.rating = some x →
      (buildTurfResult place details distanceKm).rating = some x) ∧
    (details.bind PlaceDetailsResponse.rating = none →
      (buildTurfResult place details distanceKm).rating = place.rating) ∧
    (∀ b : Bool,
      (details.bind PlaceDetailsResponse.regularOpeningHours).bind
          RegularOpeningHours.openNow = some b →
      (buildTurfResult place details distanceKm).openNow = some b) ∧
    ((details.bind PlaceDetailsResponse.regularOpeningHours).bind
        RegularOpeningHours.openNow = none →
      (buildTurfResult place details distanceKm).openNow =
        place.regularOpeningHours.bind RegularOpeningHours.openNow) ∧
    (∀ s : String, details.bind PlaceDetailsResponse.displayName = some s → s ≠ "" →
      (buildTurfResult place details distanceKm).name = s) ∧
    (strFalsy (details.bind PlaceDetailsResponse.displayName) →
      ∀ t : String, place.displayName = some t → t ≠ "" →
        (buildTurfResult place details distanceKm).name = t) ∧
    (strFalsy (details.bind PlaceDetailsResponse.displayName) →
      strFalsy place.displayName →
      (buildTurfResult place details distanceKm).name = "Unknown") ∧
    (∀ s : String, details.bind PlaceDetailsResponse.formattedAddress = some s →
      s ≠ "" → (buildTurfResult place details distanceKm).address = s) ∧
    (strFalsy (details.bind PlaceDetailsResponse.formattedAddress) →
      ∀ t : String, place.formattedAddress = some t → t ≠ "" →
        (buildTurfResult place details distanceKm).address = t) ∧
    (strFalsy (details.bind PlaceDetailsResponse.formattedAddress) →
      strFalsy place.formattedAddress →
      (buildTurfResult place details distanceKm).address = "Address not available") ∧
    (∀ s : String, details.bind PlaceDetailsResponse.internationalPhoneNumber = some s →
      s ≠ "" → (buildTurfResult place details distanceKm).phone = some s) ∧
    (strFalsy (details.bind PlaceDetailsResponse.internationalPhoneNumber) →
      ∀ t : String, details.bind PlaceDetailsResponse.nationalPhoneNumber = some t →
        t ≠ "" → (buildTurfResult place details distanceKm).phone = some t) ∧
    (strFalsy (details.bind PlaceDetailsResponse.internationalPhoneNumber) →
      strFalsy (details.bind PlaceDetailsResponse.nationalPhoneNumber) →
      (buildTurfResult place details distanceKm).phone = none) := by
  refine ⟨?_, ?_, ?_, ?_, ?_, ?_, ?_, ?_, ?_, ?_, ?_, ?_, ?_⟩
  · intro x hx
    simp [buildTurfResult, jsNullish, hx]
  · intro hx
    simp [buildTurfResult, jsNullish, hx]
  · intro b hb
    simp [buildTurfResult, jsNullish, hb]
  · intro hb
    simp [buildTurfResult, jsNullish, hb]
  · intro s hs hne
    simp [buildTurfResult, jsOrStr, hs, hne]
  · rintro (hf | hf) t ht hne <;>
      simp [buildTurfResult, jsOrStr, hf, ht, hne]
  · rintro (hf | hf) (hg | hg) <;>
      simp [buildTurfResult, jsOrStr, hf, hg]
  · intro s hs hne
    simp [buildTurfResult, jsOrStr, hs, hne]
  · rintro (hf | hf) t ht hne <;>
      simp [buildTurfResult, jsOrStr, hf, ht, hne]
  · rintro (hf | hf) (hg | hg) <;>
      simp [buildTurfResult, jsOrStr, hf, hg]
  · intro s hs hne
    simp [buildTurfResult, hs, hne]
  · rintro (hf | hf) t ht hne <;>
      simp [buildTurfResult, hf, ht, hne]
  · rintro (hf | hf) (hg | hg) <;>
      simp [buildTurfResult, hf, hg]

/-- Claim C6 witness: with summary rating 4.0 and detail rating 4.5 the
result's rating is 4.5; with no detail rating and summary rating 3.8 the
result's rating is 3.8; and the string fallbacks fire on the concrete
records. -/
theorem c6_witness :
    (buildTurfResult sampleSummaryPlace (some sampleDetailRecord) 0).rating =
      some (9 / 2) ∧
    (buildTurfResult sampleSummaryRating38 (some sampleDetailNoRating) 0).rating =
      some (19 / 5) ∧
    (buildTurfResult sampleSummaryPlace (some sampleDetailRecord) 0).name =
      "Summary Name" := by
  refine ⟨?_, ?_, ?_⟩
  · exact (c6_amended sampleSummaryPlace (some sampleDetailRecord) 0).1 (9 / 2) rfl
  · rw [(c6_amended sampleSummaryRating38 (some sampleDetailNoRating) 0).2.1 rfl]
    rfl
  · exact (c6_amended sampleSummaryPlace (some sampleDetailRecord) 0).2.2.2.2.2.1
      (Or.inr rfl) "Summary Name" rfl (by decide)

/-- String equality test `==` is symmetric. -/
theorem beq_string_comm (a b : String) : (a == b) = (b == a) := by
  by_cases h : a = b
  · simp [h]
  · simp [h, Ne.symm h]

/-- Lemma: `dedupInsert` computes the `addUnique` fold of the incoming places,
and preserves the invariant that the seen-set holds exactly the ids of
the accumulated places. -/
theorem dedupInsert_spec :
    ∀ (places : List NearbySearchPlace) (seen : List String)
      (acc : List NearbySearchPlace),
      (∀ s, seen.contains s = acc.any (fun q => q.id == s)) →
      (dedupInsert seen acc places).2 = places.foldl addUnique acc ∧
      (∀ s, (dedupInsert seen acc places).1.contains s =
        (dedupInsert seen acc places).2.any (fun q => q.id == s)) := by
  intro places
  induction places with
  | nil => intro seen acc hinv; exact ⟨rfl, hinv⟩
  | cons place rest ih =>
    intro seen acc hinv
    cases hseen : seen.contains place.id with
    | true =>
      have hany : acc.any (fun q => q.id == place.id) = true := by
        rw [← hinv]; exact hseen
      have hstep : dedupInsert seen acc (place :: rest) = dedupInsert seen acc rest := by
        simp only [dedupInsert]
        rw [hseen]
        simp
      have hfold : (place :: rest).foldl addUnique acc = rest.foldl addUnique acc := by
        simp [List.foldl_cons, addUnique, hany]
      rw [hstep, hfold]
      exact ih seen acc hinv
    | false =>
      have hany : acc.any (fun q => q.id == place.id) = false := by
        rw [← hinv]; exact hseen
      have hstep : dedupInsert seen acc (place :: rest) =
          dedupInsert (place.id :: seen) (acc ++ [place]) rest := by
        simp only [dedupInsert]
        rw [hseen]
        simp
      have hfold : (place :: rest).foldl addUnique acc =
          rest.foldl addUnique (acc ++ [place]) := by
        simp [List.foldl_cons, addUnique, hany]
      rw [hstep, hfold]
      apply ih
      intro s
      rw [List.contains_cons, List.any_append, hinv s, beq_string_comm s place.id]
      simp [Bool.or_comm]

/-- The `addUnique` fold is first-occurrence deduplication of the part of
the stream whose ids are not yet accumulated. -/
theorem foldl_addUnique_eq :
    ∀ (l : List NearbySearchPlace) (acc : List NearbySearchPlace),
      l.foldl addUnique acc =
        acc ++ dedupById (l.filter (fun q => !(acc.any (fun r => r.id == q.id)))) := by
  intro l
  induction l with
  | nil => intro acc; simp [dedupById]
  | cons p rest ih =>
    intro acc
    cases hin : acc.any (fun r => r.id == p.id) with
    | true =>
      have h1 : addUnique acc p = acc := by simp [addUnique, hin]
      rw [List.foldl_cons, h1, ih]
      have h2 : (p :: rest).filter (fun q => !(acc.any (fun r => r.id == q.id))) =
          rest.filter (fun q => !(acc.any (fun r => r.id == q.id))) := by
        simp [List.filter_cons, hin]
      rw [h2]
    | false =>
      have h1 : addUnique acc p = acc ++ [p] := by simp [addUnique, hin]
      rw [List.foldl_cons, h1, ih]
      have h2 : (p :: rest).filter (fun q => !(acc.any (fun r => r.id == q.id))) =
          p :: rest.filter (fun q => !(acc.any (fun r => r.id == q.id))) := by
        simp [List.filter_cons, hin]
      rw [h2, dedupById, List.append_assoc, List.singleton_append]
      congr 2
      rw [List.filter_filter]
      congr 1
      apply List.filter_congr
      intro q _
      rw [List.any_append]
      simp only [List.any_cons, List.any_nil, Bool.or_false, Bool.not_or]
      rw [beq_string_comm p.id q.id, Bool.and_comm]

/-- Everything `dedupById` keeps comes from the input list. -/
theorem mem_dedupById :
    ∀ (l : List NearbySearchPlace) (q : NearbySearchPlace), q ∈ dedupById l → q ∈ l := by
  intro l
  induction l using dedupById.induct with
  | case1 =>
    intro q h
    rw [dedupById] at h
    cases h
  | case2 place rest ih =>
    intro q h
    rw [dedupById] at h
    rcases List.mem_cons.mp h with h1 | h2
    · exact h1 ▸ List.mem_cons_self _ _
    · exact List.mem_cons_of_mem _ (List.mem_of_mem_filter (ih q h2))

/-- The ids of the `dedupById` output are duplicate-free. -/
theorem nodup_dedupById_ids :
    ∀ l : List NearbySearchPlace, ((dedupById l).map NearbySearchPlace.id).Nodup := by
  intro l
  induction l using dedupById.induct with
  | case1 =>
    rw [dedupById]
    simp
  | case2 place rest ih =>
    rw [dedupById]
    simp only [List.map_cons, List.nodup_cons]
    refine ⟨?_, ih⟩
    intro hmem
    obtain ⟨q, hq, hid⟩ := List.mem_map.mp hmem
    have hfil := mem_dedupById _ _ hq
    have hcond := List.of_mem_filter hfil
    rw [hid] at hcond
    simp at hcond

/-- The final `allPlaces` of the keyword loop is the `addUnique` fold of
the concatenated successful pass results onto the incoming accumulator,
provided the seen-set matches the accumulator. -/
theorem searchLoop_acc (textStub : String → Option (List NearbySearchPlace))
    (maxResults : Nat) :
    ∀ (keywords : List String) (seen : List String) (acc : List NearbySearchPlace),
      (∀ s, seen.contains s = acc.any (fun q => q.id == s)) →
      (searchLoop textStub maxResults keywords seen acc).1 =
        (searchLoop textStub maxResults keywords seen acc).2.2.foldl addUnique acc := by
  intro keywords
  induction keywords with
  | nil => intro seen acc _; rfl
  | cons keyword rest ih =>
    intro seen acc hinv
    cases hstub : textStub keyword with
    | none =>
      simp only [searchLoop, hstub]
      exact ih seen acc hinv
    | some places =>
      obtain ⟨hfold, hinv'⟩ := dedupInsert_spec places seen acc hinv
      by_cases hbreak :
          maxResults ≤ (dedupInsert seen acc places).2.length
      · simp only [searchLoop, hstub, if_pos hbreak]
        exact hfold
      · simp only [searchLoop, hstub, if_neg hbreak]
        rw [List.foldl_append, ← hfold]
        exact ih _ _ hinv'

/-- If the keyword loop issued at least one pass, the first pass records
the incoming accumulator length as its count-before. -/
theorem searchLoop_head (textStub : String → Option (List NearbySearchPlace))
    (maxResults : Nat) :
    ∀ (keywords : List String) (seen : List String) (acc : List NearbySearchPlace)
      (r : PassRecord),
      (searchLoop textStub maxResults keywords seen acc).2.1.head? = some r →
      r.countBefore = acc.length := by
  intro keywords seen acc r
  cases keywords with
  | nil => intro h; cases h
  | cons keyword rest =>
    cases hstub : textStub keyword with
    | none =>
      simp only [searchLoop, hstub, List.head?_cons]
      intro h
      cases h
      rfl
    | some places =>
      by_cases hbreak :
          maxResults ≤ (dedupInsert seen acc places).2.length
      · simp only [searchLoop, hstub, if_pos hbreak, List.head?_cons]
        intro h
        cases h
        rfl
      · simp only [searchLoop, hstub, if_neg hbreak, List.head?_cons]
        intro h
        cases h
        rfl

/-- Consecutive-pass property of the keyword loop: a pass that follows a
successful pass starts below `maxResults` (the loop breaks otherwise). -/
theorem searchLoop_chain (textStub : String → Option (List NearbySearchPlace))
    (maxResults : Nat) :
    ∀ (keywords : List String) (seen : List String) (acc : List NearbySearchPlace),
      List.Chain' (fun r₁ r₂ => r₁.ok = true → r₂.countBefore < maxResults)
        (searchLoop textStub maxResults keywords seen acc).2.1 := by
  intro keywords
  induction keywords with
  | nil => intro seen acc; exact List.chain'_nil
  | cons keyword rest ih =>
    intro seen acc
    cases hstub : textStub keyword with
    | none =>
      simp only [searchLoop, hstub]
      rw [List.chain'_cons']
      refine ⟨?_, ih seen acc⟩
      intro b hb hok
      cases hok
    | some places =>
      by_cases hbreak :
          maxResults ≤ (dedupInsert seen acc places).2.length
      · simp only [searchLoop, hstub, if_pos hbreak]
        exact List.chain'_singleton _
      · simp only [searchLoop, hstub, if_neg hbreak]
        rw [List.chain'_cons']
        refine ⟨?_, ih _ _⟩
        intro b hb _
        rw [searchLoop_head textStub maxResults rest _ _ b hb]
        omega

/-- Claim C3: across the seed pass and the keyword passes, the merged
list is exactly the first-occurrence deduplication (by id) of the raw
result stream — each id appears exactly once, the first-seen copy is
kept wholesale and later sightings are discarded without field merging —
and the final returned list keeps its ids duplicate-free. -/
theorem c3_dedup_first_seen (nearbyStub : Option (List NearbySearchPlace))
    (textStub : String → Option (List NearbySearchPlace))
    (customKeyword : Option String) (maxResults : Nat) :
    (searchTurfsModel nearbyStub textStub customKeyword maxResults).merged =
      dedupById (searchTurfsModel nearbyStub textStub customKeyword maxResults).raw ∧
    ((searchTurfsModel nearbyStub textStub customKeyword maxResults).merged.map
      NearbySearchPlace.id).Nodup ∧
    ((searchTurfsModel nearbyStub textStub customKeyword maxResults).result.map
      NearbySearchPlace.id).Nodup := by
  have hinv0 : ∀ s : String, ([] : List String).contains s =
      ([] : List NearbySearchPlace).any (fun q => q.id == s) := fun _ => rfl
  obtain ⟨hseed, hinvs⟩ := dedupInsert_spec (nearbyStub.getD []) [] [] hinv0
  have hmerged : (searchTurfsModel nearbyStub textStub customKeyword maxResults).merged =
      dedupById (searchTurfsModel nearbyStub textStub customKeyword maxResults).raw := by
    simp only [searchTurfsModel]
    rw [searchLoop_acc textStub maxResults _ _ _ hinvs, hseed, ← List.foldl_append,
      foldl_addUnique_eq]
    simp
  refine ⟨hmerged, ?_, ?_⟩
  · rw [hmerged]
    exact nodup_dedupById_ids _
  · have hnd : ((searchTurfsModel nearbyStub textStub customKeyword maxResults).merged.map
        NearbySearchPlace.id).Nodup := by
      rw [hmerged]
      exact nodup_dedupById_ids _
    have hsub : List.Sublist
        (searchTurfsModel nearbyStub textStub customKeyword maxResults).result
        (searchTurfsModel nearbyStub textStub customKeyword maxResults).merged := by
      simp only [searchTurfsModel]
      exact (List.take_sublist _ _).trans (List.filter_sublist _)
    exact hnd.sublist (hsub.map _)

/-- Claim C2 counterexample: with `maxResults = 1` and a seed nearby
pass that already returns one unique place, the accumulated unique count
has reached `maxResults` before any keyword pass, yet the first keyword
`textSearch` call is still issued (its recorded count-before is 1, not
below `maxResults`) — the early-stop check only runs after a keyword
pass. -/
theorem c2_counterexample :
    ((searchTurfsModel (some [samplePlaceA]) (fun _ => some []) none 1).passes.map
      PassRecord.countBefore) = [1] ∧
    ¬ (1 < 1) := by
  refine ⟨by decide, by omega⟩

/-- Claim C2 amended: after each keyword pass, once the accumulated
unique count has reached `maxResults` no further keyword query is
issued — every issued `textSearch` call that follows a *successful*
keyword pass starts with an accumulated count strictly below
`maxResults`.  (The first keyword call is issued unconditionally even if
the nearby seed pass alone reached `maxResults`, and a failed pass skips
the check.) -/
theorem c2_amended (nearbyStub : Option (List NearbySearchPlace))
    (textStub : String → Option (List NearbySearchPlace))
    (customKeyword : Option String) (maxResults : Nat) :
    ∀ (i : Nat)
      (h : i + 1 <
        (searchTurfsModel nearbyStub textStub customKeyword maxResults).passes.length),
      ((searchTurfsModel nearbyStub textStub customKeyword maxResults).passes.get
        ⟨i, by omega⟩).ok = true →
      ((searchTurfsModel nearbyStub textStub customKeyword maxResults).passes.get
        ⟨i + 1, h⟩).countBefore < maxResults := by
  intro i h hok
  have hchain : List.Chain' (fun r₁ r₂ => r₁.ok = true → r₂.countBefore < maxResults)
      (searchTurfsModel nearbyStub textStub customKeyword maxResults).passes := by
    simp only [searchTurfsModel]
    exact searchLoop_chain textStub maxResults _ _ _
  rw [List.chain'_iff_get] at hchain
  exact hchain i (by omega) hok

/-- Claim C2 witness: in a run where every keyword pass succeeds with no
results (`maxResults = 5`), the second issued pass starts below the cap,
by the amended theorem applied at the first pass. -/
theorem c2_witness :
    ((searchTurfsModel none (fun _ => some []) none 5).passes.get
      ⟨1, by decide⟩).countBefore < 5 :=
  c2_amended none (fun _ => some []) none 5 0 (by decide) (by decide)

end TurfFinder
